import Mathlib

/-!
# Py86 VM control plane — shallow embedding

This file embeds the VM control plane of `src/main.py` (class `VM`) into
Lean 4 and proves the spec-level properties about it.

Modelling conventions:
* Python exceptions are modelled by returning the post-state together with
  an `Option Py86Error`; all mutations performed before a `raise` are kept
  (in this code every `raise` happens before any mutation of the object).
* Host nondeterminism (search-path lookups, ephemeral-port allocation,
  filesystem contents, socket reads, JSON parsing of foreign bytes) is an
  explicit `Env` record threaded through the operations.
* Filesystem writes are recorded as a trace of `FileOp` events rather than
  mutating a filesystem model; process spawns are recorded as the spawned
  argument vectors.
* Machine integers do not overflow in the modelled paths (ports and sizes
  are Python ints), so `Nat`/`Int` are used directly; `vnc_port - 5900`
  is computed in `Int` because Python subtraction may go negative.
-/

set_option autoImplicit false

namespace Py86

/-- A registered virtual disk image: `{"path": ..., "format": ...}`
appended by `VM.create_disk`. -/
structure DiskSpec where
  path : String
  format : String
deriving DecidableEq, Repr

/-- The `advanced` mapping of host-allocated values.  The source keeps it
as an open JSON dict; the keys the control plane reads are `machine`,
`vnc_port`, `tap_name`, `qmp_port` and `ovmf_code`, modelled as optional
fields (absent key = `none`). -/
structure Advanced where
  machine : Option String := none
  vnc_port : Option Nat := none
  tap_name : Option String := none
  qmp_port : Option Nat := none
  ovmf_code : Option String := none
deriving DecidableEq, Repr

/-- The persisted VM configuration document (`DEFAULT_CONFIG` keys of
`src/main.py`). -/
structure VMConfig where
  name : String := "py86-vm"
  created : Option String := none
  version : String := "beta 0.12"
  cpu_cores : Nat := 2
  memory_mib : Nat := 4096
  disk_gib : Nat := 32
  disk_format : String := "raw"
  efi : Bool := true
  boot_order : String := "cdrom,hd,menu"
  iso_path : Option String := none
  extra_args : String := ""
  network_mode : String := "user (NAT)"
  enable_kvm : Bool := false
  graphics : String := "sdl"
  display_embed : Bool := true
  advanced : Advanced := {}
  disks : List DiskSpec := []
  usb_passthrough : List String := []
  nested_virt : Bool := false
  autostart : Bool := false
  vga : String := "virtio"
deriving DecidableEq, Repr

/-- A child hypervisor process handle: `poll()` returns `none` while the
process is still running, and the exit code once it has exited. -/
structure Proc where
  cmd : List String
  exitCode : Option Int
deriving DecidableEq, Repr

/-- The `VM` aggregate: persisted config plus the non-persisted runtime
state (`self.proc`, `self.qmp_sock`). The connected QMP socket is
modelled by its presence. -/
structure VM where
  name : String
  config : VMConfig
  proc : Option Proc := none
  qmp_sock : Bool := false
deriving DecidableEq, Repr

/-- Errors raised by the modelled operations, one per `raise` site. -/
inductive Py86Error where
  /-- `FileNotFoundError("qemu not found")` in `build_qemu_cmd`. -/
  | hypervisorNotFound
  /-- `RuntimeError("already running")` in `start`. -/
  | alreadyRunning
  /-- `RuntimeError("qmp not connected")` in `qmp_command`. -/
  | notConnected
  /-- `RuntimeError("empty bundle")` in `import_bundle`. -/
  | emptyBundle
  /-- `FileExistsError("vm exists")` in `import_bundle`. -/
  | vmExists
deriving DecidableEq, Repr

/-- Filesystem write events emitted by disk creation. -/
inductive FileOp where
  /-- `subprocess.run([qemu_img, "create", "-f", fmt, target, f"{gib}G"])`. -/
  | qemuImgCreate (fmt : String) (target : String) (gib : Nat)
  /-- `open(target, "wb")` followed by `f.truncate(bytes)`. -/
  | truncateFile (target : String) (bytes : Nat)
deriving DecidableEq, Repr

/-- A minimal JSON value type for the QMP wire protocol. -/
inductive Json where
  | null
  | bool (b : Bool)
  | num (n : Int)
  | str (s : String)
  | obj (fields : List (String × Json))
deriving Repr

/-- The host environment: everything the control plane observes from
outside the VM object.  Two runs on the same host agree on the search
path, store directory and filesystem, but may receive different
ephemeral ports from the kernel. -/
structure Env where
  /-- result of `find_qemu()` (`shutil.which` over the candidate names) -/
  qemuPath : Option String
  /-- result of `shutil.which("qemu-img")` -/
  qemuImg : Option String
  /-- `VMS_DIR` (`~/.py86/vms`) -/
  vmsDir : String
  /-- the ephemeral port the kernel hands to the VNC-allocation bind -/
  freshVncPort : Nat
  /-- the ephemeral port the kernel hands to `_allocate_qmp_port` -/
  freshQmpPort : Nat
  /-- `Path.exists` on the host filesystem -/
  fsExists : String → Bool
  /-- the decoded bytes the next `recv` on the QMP socket returns -/
  recvData : String
  /-- `json.loads`, abstractly: `none` models a parse failure -/
  jsonLoads : String → Option Json

/-- Python truthiness of an optional int (`if not x` is taken both for
`None` and for `0`). -/
def truthyNat : Option Nat → Bool
  | none => false
  | some n => n != 0

/-- Python truthiness of an optional string (`None` and `""` are falsy). -/
def truthyStr : Option String → Bool
  | none => false
  | some s => s != ""

/-- Python `str.split()` with no argument: split on whitespace runs, dropping
empty tokens. -/
def pySplit (s : String) : List String :=
  (s.split fun c => c.isWhitespace).filter (fun t => t != "")

/-- Source `Path.name`: the final path component. -/
def baseName (p : String) : String :=
  (p.splitOn "/").getLastD p

/-- Characters before the first slash. -/
def takeUntilSlash : List Char → List Char
  | [] => []
  | c :: cs => if c = '/' then [] else c :: takeUntilSlash cs

/-- Source `name.split("/", 1)[0]`: the substring before the first slash (the
whole string when there is none). -/
def splitHead (m : String) : String :=
  ⟨takeUntilSlash m.data⟩

/-- Source `self.path = VMS_DIR / name`. -/
def VM.dirPath (env : Env) (vm : VM) : String :=
  env.vmsDir ++ "/" ++ vm.name

/-- Source `self.config_path = self.path / "config.json"`. -/
def VM.config_path (env : Env) (vm : VM) : String :=
  vm.dirPath env ++ "/config.json"

/-- Source `self.disk_dir = self.path / "disks"`. -/
def VM.disk_dir (env : Env) (vm : VM) : String :=
  vm.dirPath env ++ "/disks"

/-- Source `self.logs_dir = self.path / "logs"`. -/
def VM.logs_dir (env : Env) (vm : VM) : String :=
  vm.dirPath env ++ "/logs"

/-- Embeds `VM.create_disk(name, gib, fmt)`: if `qemu-img` is on the path and the
format is not raw, run `qemu-img create`; otherwise truncate a sparse file
of `gib * 1024**3` bytes.  In both cases append the DiskSpec to
`config["disks"]` and save. Returns the post-state and file-op trace. -/
def VM.create_disk (env : Env) (vm : VM) (name : String) (gib : Nat)
    (fmt : String := "raw") : VM × List FileOp :=
  let target := vm.disk_dir env ++ "/" ++ name
  let ops :=
    if env.qemuImg.isSome && (fmt != "raw") then
      [FileOp.qemuImgCreate fmt target gib]
    else
      [FileOp.truncateFile target (gib * 1024 ^ 3)]
  ({ vm with config :=
      { vm.config with disks := vm.config.disks ++ [⟨target, fmt⟩] } }, ops)

/-- Embeds `VM.ensure_primary_disk`: create `"{name}-disk0.{disk_format}"` of
`disk_gib` GiB when the `disks` list is empty; otherwise do nothing. -/
def VM.ensure_primary_disk (env : Env) (vm : VM) : VM × List FileOp :=
  if vm.config.disks = [] then
    vm.create_disk env (vm.name ++ "-disk0." ++ vm.config.disk_format)
      vm.config.disk_gib vm.config.disk_format
  else
    (vm, [])

/-- JSON escaping of one character (`json.dumps` string escaping for the
characters the protocol uses; `\uXXXX` escaping of other control and
non-ASCII characters is not modelled). -/
def escChar (c : Char) : String :=
  if c = '"' then "\\\""
  else if c = '\\' then "\\\\"
  else if c = '\n' then "\\n"
  else if c = '\t' then "\\t"
  else if c = '\r' then "\\r"
  else String.singleton c

/-- Python `json.dumps` on a string literal. -/
def dumpStr (s : String) : String :=
  "\"" ++ String.join (s.data.map escChar) ++ "\""

mutual

/-- Python `json.dumps(obj)` with the default separators. -/
def Json.dumps : Json → String
  | .null => "null"
  | .bool true => "true"
  | .bool false => "false"
  | .num n => toString n
  | .str s => dumpStr s
  | .obj fs => "\x7b" ++ Json.dumpsFields fs ++ "\x7d"

/-- comma-joined `"key": value` pairs of a JSON object. -/
def Json.dumpsFields : List (String × Json) → String
  | [] => ""
  | [(k, v)] => dumpStr k ++ ": " ++ Json.dumps v
  | (k, v) :: rest => dumpStr k ++ ": " ++ Json.dumps v ++ ", " ++ Json.dumpsFields rest

end

/-- Source `build_qemu_cmd` lines 157-158: machine type from `advanced.machine`,
default `"q35"`. -/
def machineArgs (cfg : VMConfig) : List String :=
  ["-machine", cfg.advanced.machine.getD "q35"]

/-- Source `build_qemu_cmd` lines 159-162: KVM and nested-virtualization flags. -/
def accelArgs (cfg : VMConfig) : List String :=
  (if cfg.enable_kvm then ["-enable-kvm"] else []) ++
  (if cfg.nested_virt then ["-cpu", "host"] else [])

/-- Source `build_qemu_cmd` lines 163-164: CPU count and memory size. -/
def smpMemArgs (cfg : VMConfig) : List String :=
  ["-smp", toString cfg.cpu_cores, "-m", toString cfg.memory_mib]

/-- Source `build_qemu_cmd` lines 165-169: one `-drive` per registered disk. -/
def driveArgs (cfg : VMConfig) : List String :=
  (cfg.disks.map fun d =>
    ["-drive", "file=" ++ d.path ++ ",format=" ++ d.format ++ ",if=virtio"]).flatten

/-- Source `build_qemu_cmd` lines 170-173: optional `-cdrom`, then `-boot`. -/
def cdromBootArgs (cfg : VMConfig) : List String :=
  (if truthyStr cfg.iso_path then ["-cdrom", cfg.iso_path.getD ""] else []) ++
  ["-boot", cfg.boot_order]

/-- Source `build_qemu_cmd` lines 174-193: graphics flags.  The `vnc` branch
allocates (and persists into `advanced`) a loopback port when none is
stored; the display index is `vnc_port - 5900`, computed in `Int` because
Python subtraction may go negative. -/
def graphicsArgs (env : Env) (cfg : VMConfig) (embed_window_id : Option Nat) :
    List String × VMConfig :=
  if cfg.graphics = "none" then
    (["-nographic"], cfg)
  else if cfg.graphics = "sdl" then
    (if cfg.display_embed && truthyNat embed_window_id then
      ["-display", "sdl,window-id=" ++ toString (embed_window_id.getD 0)]
    else
      ["-display", "sdl"], cfg)
  else if cfg.graphics = "gtk" then
    (["-display", "gtk"], cfg)
  else if cfg.graphics = "vnc" then
    if truthyNat cfg.advanced.vnc_port then
      (["-vnc", "127.0.0.1:" ++ toString ((cfg.advanced.vnc_port.getD 0 : Int) - 5900)], cfg)
    else
      (["-vnc", "127.0.0.1:" ++ toString ((env.freshVncPort : Int) - 5900)],
       { cfg with advanced := { cfg.advanced with vnc_port := some env.freshVncPort } })
  else
    (["-display", cfg.graphics], cfg)

/-- Source `build_qemu_cmd` lines 194-203: network flags (`user*` is matched by
prefix, as in the source's `nm.startswith("user")`). -/
def netArgs (cfg : VMConfig) : List String :=
  if cfg.network_mode.startsWith "user" then
    ["-netdev", "user,id=net0", "-device", "virtio-net-pci,netdev=net0"]
  else if cfg.network_mode = "bridge" then
    ["-netdev", "tap,id=net0,ifname=" ++ cfg.advanced.tap_name.getD "tap0" ++
       ",script=no,downscript=no",
     "-device", "virtio-net-pci,netdev=net0"]
  else if cfg.network_mode = "host-only" then
    ["-netdev", "user,id=net0,restrict=on", "-device", "virtio-net-pci,netdev=net0"]
  else
    ["-net", "none"]

/-- Source `build_qemu_cmd` lines 204-207 together with `_allocate_qmp_port`:
reuse the stored control port, otherwise allocate a fresh one and persist
it into `advanced.qmp_port`. -/
def qmpArgs (env : Env) (cfg : VMConfig) : List String × VMConfig :=
  if truthyNat cfg.advanced.qmp_port then
    (["-qmp", "tcp:127.0.0.1:" ++ toString (cfg.advanced.qmp_port.getD 0) ++ ",server,nowait"], cfg)
  else
    (["-qmp", "tcp:127.0.0.1:" ++ toString env.freshQmpPort ++ ",server,nowait"],
     { cfg with advanced := { cfg.advanced with qmp_port := some env.freshQmpPort } })

/-- Source `build_qemu_cmd` lines 208-211: `-bios` when EFI is on and a firmware
image path is stored. -/
def biosArgs (cfg : VMConfig) : List String :=
  if cfg.efi then
    if truthyStr cfg.advanced.ovmf_code then ["-bios", cfg.advanced.ovmf_code.getD ""] else []
  else []

/-- Source `build_qemu_cmd` lines 212-214: free-form extra arguments, tokenized
on whitespace. -/
def extraArgsOf (cfg : VMConfig) : List String :=
  if cfg.extra_args ≠ "" then pySplit cfg.extra_args else []

/-- Source `build_qemu_cmd` lines 215-216: `-D` with the per-VM log file. -/
def logArgs (env : Env) (name : String) : List String :=
  ["-D", env.vmsDir ++ "/" ++ name ++ "/logs/" ++ name ++ ".log"]

/-- Result of `build_qemu_cmd`: post-state, built argument vector, file-op
trace, and the raised error if any (`cmd = []` when it raised). -/
structure BuildOut where
  vm : VM
  cmd : List String
  fileOps : List FileOp
  err : Option Py86Error
deriving DecidableEq, Repr

/-- Embeds `VM.build_qemu_cmd`: resolve the hypervisor binary first
(`FileNotFoundError` aborts before anything else), ensure a primary disk,
then assemble the argument vector section by section, persisting any
freshly allocated VNC/QMP port into `advanced`. -/
def VM.build_qemu_cmd (env : Env) (vm : VM) (embed_window_id : Option Nat) : BuildOut :=
  match env.qemuPath with
  | none => ⟨vm, [], [], some .hypervisorNotFound⟩
  | some qemu =>
    let eo := vm.ensure_primary_disk env
    let vm1 := eo.1
    let g := graphicsArgs env vm1.config embed_window_id
    let q := qmpArgs env g.2
    let cfg := q.2
    let cmd := [qemu] ++ machineArgs vm1.config ++ accelArgs vm1.config ++
      smpMemArgs vm1.config ++ driveArgs vm1.config ++ cdromBootArgs vm1.config ++
      g.1 ++ netArgs g.2 ++ q.1 ++ biosArgs cfg ++ extraArgsOf cfg ++
      logArgs env vm1.name
    ⟨{ vm1 with config := cfg }, cmd, eo.2, none⟩

/-- Source `self.proc and self.proc.poll() is None`: a live process handle. -/
def procLive : Option Proc → Bool
  | some p => p.exitCode.isNone
  | none => false

/-- Result of `start`: post-state, the argument vectors passed to
`subprocess.Popen`, the file-op trace, and the raised error if any. -/
structure StartOut where
  vm : VM
  spawned : List (List String)
  fileOps : List FileOp
  err : Option Py86Error
deriving DecidableEq, Repr

/-- Embeds `VM.start`: raise `AlreadyRunning` while a live process handle exists
(before building or spawning anything); otherwise build the command and
spawn it, storing the new process handle. -/
def VM.start (env : Env) (vm : VM) (embed_window_id : Option Nat) : StartOut :=
  if procLive vm.proc then
    ⟨vm, [], [], some .alreadyRunning⟩
  else
    let b := vm.build_qemu_cmd env embed_window_id
    match b.err with
    | some e => ⟨b.vm, [], b.fileOps, some e⟩
    | none => ⟨{ b.vm with proc := some ⟨b.cmd, none⟩ }, [b.cmd], b.fileOps, none⟩

/-- Result of `qmp_command`: bytes written to the socket, strings read
from it, the returned value, and the raised error if any. -/
structure QmpOut where
  sent : List String
  received : List String
  result : Option Json
  err : Option Py86Error

/-- Embeds `VM.qmp_command`: raise `NotConnected` without a handshaken socket;
otherwise send exactly one newline-terminated JSON command, read one
buffered response, and return the parsed JSON — or `{"raw": resp}` when
parsing fails. -/
def VM.qmp_command (env : Env) (vm : VM) (cmd_obj : Json) : QmpOut :=
  if vm.qmp_sock then
    let data := Json.dumps cmd_obj ++ "\n"
    let resp := env.recvData
    match env.jsonLoads resp with
    | some j => ⟨[data], [resp], some j, none⟩
    | none => ⟨[data], [resp], some (Json.obj [("raw", Json.str resp)]), none⟩
  else
    ⟨[], [], none, some .notConnected⟩

/-- Embeds `VM.export_bundle`: the archive entries `(source path, arcname)` in
the order `tar.add` is called — `config.json` first, then every
registered disk whose file exists, then the install medium when requested
and present.  The operation is total: missing disk or ISO files are
skipped, never an error. -/
def VM.export_bundle (env : Env) (vm : VM) (include_iso : Bool) :
    List (String × String) :=
  [(vm.config_path env, vm.name ++ "/config.json")] ++
  ((vm.config.disks.filter fun d => env.fsExists d.path).map fun d =>
    (d.path, vm.name ++ "/disks/" ++ baseName d.path)) ++
  (if include_iso && truthyStr vm.config.iso_path then
    if env.fsExists (vm.config.iso_path.getD "") then
      [(vm.config.iso_path.getD "",
        vm.name ++ "/iso/" ++ baseName (vm.config.iso_path.getD ""))]
    else []
  else [])

/-- Embeds `VM.import_bundle` on the archive's member names, in order: raise
`EmptyBundle` on an empty archive; infer the VM name as the top-level
directory of the first member (`members[0].name.split("/", 1)[0]`); raise
`AlreadyExists` when that VM directory exists, extracting nothing;
otherwise extract every member into the store root and load the VM.
Returns the extracted member names and the loaded VM name (or error). -/
def VM.import_bundle (env : Env) (members : List String) :
    List String × Except Py86Error String :=
  match members with
  | [] => ([], .error .emptyBundle)
  | m :: _ =>
    let root := splitHead m
    if env.fsExists (env.vmsDir ++ "/" ++ root) then
      ([], .error .vmExists)
    else
      (members, .ok root)

/-- Sample host environment with neither hypervisor nor `qemu-img` on the
search path and an empty store. -/
def envNoTools : Env :=
  ⟨none, none, "/home/user/.py86/vms", 41001, 41002, fun _ => false, "", fun _ => none⟩

/-- Sample host environment with both tools installed. -/
def envStocked : Env :=
  ⟨some "/usr/bin/qemu-system-x86_64", some "/usr/bin/qemu-img", "/home/user/.py86/vms",
   41001, 41002, fun _ => false, "", fun _ => none⟩

/-- Sample host environment that agrees with `envStocked` except for the
ephemeral ports the kernel would hand out. -/
def envStockedOther : Env :=
  ⟨some "/usr/bin/qemu-system-x86_64", some "/usr/bin/qemu-img", "/home/user/.py86/vms",
   51001, 51002, fun _ => false, "", fun _ => none⟩

/-- Sample host environment whose QMP socket hands back bytes that do not
parse as JSON. -/
def envGarbled : Env :=
  ⟨some "/usr/bin/qemu-system-x86_64", none, "/home/user/.py86/vms", 41001, 41002,
   fun _ => false, "event-noise", fun _ => none⟩

/-- Sample host environment whose store already holds a VM directory
named `web01`. -/
def envHasWeb01 : Env :=
  ⟨some "/usr/bin/qemu-system-x86_64", none, "/home/user/.py86/vms", 41001, 41002,
   fun p => p == "/home/user/.py86/vms/web01", "", fun _ => none⟩

/-- Sample host environment where exactly one of the `vmTwoDisks` disk
files exists. -/
def envOneDisk : Env :=
  ⟨some "/usr/bin/qemu-system-x86_64", none, "/home/user/.py86/vms", 41001, 41002,
   fun p => p == "/home/user/.py86/vms/vm2/disks/vm2-disk0.raw", "", fun _ => none⟩

/-- Sample fresh VM with the default configuration. -/
def vm0 : VM := { name := "vm0", config := { name := "vm0" } }

/-- Sample VM with a live hypervisor process. -/
def vmRunning : VM :=
  { name := "vm0", config := { name := "vm0" },
    proc := some ⟨["qemu-system-x86_64"], none⟩ }

/-- Sample fresh VM named `web01` with the default configuration. -/
def vmWeb01 : VM := { name := "web01", config := { name := "web01" } }

/-- Sample configuration whose `advanced` map is fully populated. -/
def vmAdvConfig : VMConfig :=
  { name := "vm1",
    graphics := "vnc",
    advanced := ⟨some "q35", some 5901, some "tap0", some 4444, some "/usr/share/OVMF.fd"⟩,
    disks := [⟨"/home/user/.py86/vms/vm1/disks/vm1-disk0.raw", "raw"⟩] }

/-- Sample VM whose `advanced` map is fully populated. -/
def vmAdv : VM := { name := "vm1", config := vmAdvConfig }

/-- Sample VM with a handshaken QMP connection. -/
def vmReady : VM :=
  { name := "vm0", config := { name := "vm0" },
    proc := some ⟨["qemu-system-x86_64"], none⟩, qmp_sock := true }

/-- Sample configuration registering two disks. -/
def vmTwoDisksConfig : VMConfig :=
  { name := "vm2",
    disks := [⟨"/home/user/.py86/vms/vm2/disks/vm2-disk0.raw", "raw"⟩,
              ⟨"/home/user/.py86/vms/vm2/disks/vm2-disk1.raw", "raw"⟩] }

/-- Sample VM registering two disks. -/
def vmTwoDisks : VM := { name := "vm2", config := vmTwoDisksConfig }


/-! ## Helper lemmas -/

/-- Lemma: `ensure_primary_disk` never touches the `advanced` map. -/
theorem ensure_primary_disk_advanced (env : Env) (vm : VM) :
    ((VM.ensure_primary_disk env vm).1).config.advanced = vm.config.advanced := by
  unfold VM.ensure_primary_disk VM.create_disk
  split <;> rfl

/-- Lemma: `ensure_primary_disk` never touches the `graphics` field. -/
theorem ensure_primary_disk_graphics (env : Env) (vm : VM) :
    ((VM.ensure_primary_disk env vm).1).config.graphics = vm.config.graphics := by
  unfold VM.ensure_primary_disk VM.create_disk
  split <;> rfl

/-- Unfolding of `build_qemu_cmd` when the hypervisor binary does not
resolve. -/
theorem build_qemu_cmd_none (env : Env) (vm : VM) (e : Option Nat)
    (h : env.qemuPath = none) :
    VM.build_qemu_cmd env vm e = ⟨vm, [], [], some .hypervisorNotFound⟩ := by
  unfold VM.build_qemu_cmd
  rw [h]

/-- Unfolding of `build_qemu_cmd` when the hypervisor binary resolves. -/
theorem build_qemu_cmd_some (env : Env) (vm : VM) (e : Option Nat) (q : String)
    (h : env.qemuPath = some q) :
    VM.build_qemu_cmd env vm e = ⟨
      { (VM.ensure_primary_disk env vm).1 with
          config := (qmpArgs env
            (graphicsArgs env ((VM.ensure_primary_disk env vm).1).config e).2).2 },
      [q] ++ machineArgs ((VM.ensure_primary_disk env vm).1).config
          ++ accelArgs ((VM.ensure_primary_disk env vm).1).config
          ++ smpMemArgs ((VM.ensure_primary_disk env vm).1).config
          ++ driveArgs ((VM.ensure_primary_disk env vm).1).config
          ++ cdromBootArgs ((VM.ensure_primary_disk env vm).1).config
          ++ (graphicsArgs env ((VM.ensure_primary_disk env vm).1).config e).1
          ++ netArgs (graphicsArgs env ((VM.ensure_primary_disk env vm).1).config e).2
          ++ (qmpArgs env (graphicsArgs env ((VM.ensure_primary_disk env vm).1).config e).2).1
          ++ biosArgs (qmpArgs env
               (graphicsArgs env ((VM.ensure_primary_disk env vm).1).config e).2).2
          ++ extraArgsOf (qmpArgs env
               (graphicsArgs env ((VM.ensure_primary_disk env vm).1).config e).2).2
          ++ logArgs env ((VM.ensure_primary_disk env vm).1).name,
      (VM.ensure_primary_disk env vm).2, none⟩ := by
  unfold VM.build_qemu_cmd
  rw [h]

/-- Lemma: with a stored (truthy) VNC port, `graphicsArgs` never reads
the host environment. -/
theorem graphicsArgs_env_congr (env2 env1 : Env) (cfg : VMConfig) (e : Option Nat)
    (h : truthyNat cfg.advanced.vnc_port = true) :
    graphicsArgs env2 cfg e = graphicsArgs env1 cfg e := by
  simp [graphicsArgs, h]

/-- Lemma: `graphicsArgs` leaves the config unchanged unless it has to
allocate a VNC port. -/
theorem graphicsArgs_snd (env : Env) (cfg : VMConfig) (e : Option Nat)
    (h : cfg.graphics = "vnc" → truthyNat cfg.advanced.vnc_port = true) :
    (graphicsArgs env cfg e).2 = cfg := by
  unfold graphicsArgs
  split_ifs <;> simp_all

/-- Lemma: with a stored (truthy) control port, `qmpArgs` never reads the
host environment. -/
theorem qmpArgs_env_congr (env2 env1 : Env) (cfg : VMConfig)
    (h : truthyNat cfg.advanced.qmp_port = true) :
    qmpArgs env2 cfg = qmpArgs env1 cfg := by
  simp [qmpArgs, h]

/-- Lemma: with a stored (truthy) control port, `qmpArgs` leaves the
config unchanged. -/
theorem qmpArgs_snd (env : Env) (cfg : VMConfig)
    (h : truthyNat cfg.advanced.qmp_port = true) :
    (qmpArgs env cfg).2 = cfg := by
  simp [qmpArgs, h]

/-- Lemma: with a stored (truthy) control port, `qmpArgs` emits exactly
the stored port. -/
theorem qmpArgs_fst (env : Env) (cfg : VMConfig)
    (h : truthyNat cfg.advanced.qmp_port = true) :
    (qmpArgs env cfg).1 =
      ["-qmp", "tcp:127.0.0.1:" ++ toString (cfg.advanced.qmp_port.getD 0) ++ ",server,nowait"] := by
  simp [qmpArgs, h]

/-- Lemma: `ensure_primary_disk` reads only `qemuImg` and `vmsDir` from
the host environment. -/
theorem ensure_primary_disk_env_congr (env2 env1 : Env) (vm : VM)
    (himg : env2.qemuImg = env1.qemuImg) (hdir : env2.vmsDir = env1.vmsDir) :
    VM.ensure_primary_disk env2 vm = VM.ensure_primary_disk env1 vm := by
  simp [VM.ensure_primary_disk, VM.create_disk, VM.disk_dir, VM.dirPath, himg, hdir]

/-! ## Claim theorems -/

/-- C1 (counterexample): with `qemu-img` absent from the search path and
format `qcow2`, `create_disk` does NOT leave the filesystem and the disks
list untouched — it truncates a raw file and registers the DiskSpec —
refuting the claim that creation fails with no file created and no
DiskSpec registered. -/
theorem create_disk_qcow2_no_unsupported_format_cex :
    ¬ ((VM.create_disk envNoTools vm0 "vm0-disk0.qcow2" 2 "qcow2").2 = [] ∧
       (VM.create_disk envNoTools vm0 "vm0-disk0.qcow2" 2 "qcow2").1.config.disks
         = vm0.config.disks) := by decide

/-- C1 (amended): when `qemu-img` is not on the search path, `create_disk`
falls back to truncating a raw file of `gib * 2^30` bytes for *every*
requested format, and registers a DiskSpec carrying the requested format
string (it does not fail with `UnsupportedFormat`). -/
theorem create_disk_fallback_raw (env : Env) (vm : VM) (nm : String) (g : Nat)
    (f : String) (h : env.qemuImg = none) :
    VM.create_disk env vm nm g f =
      ({ vm with config := { vm.config with
          disks := vm.config.disks ++ [⟨vm.disk_dir env ++ "/" ++ nm, f⟩] } },
       [FileOp.truncateFile (vm.disk_dir env ++ "/" ++ nm) (g * 2 ^ 30)]) := by
  simp [VM.create_disk, h]

theorem create_disk_fallback_raw_witness :
    envNoTools.qemuImg = none ∧
    VM.create_disk envNoTools vm0 "vm0-disk0.qcow2" 2 "qcow2" =
      ({ vm0 with config := { vm0.config with
          disks := vm0.config.disks ++
            [⟨vm0.disk_dir envNoTools ++ "/" ++ "vm0-disk0.qcow2", "qcow2"⟩] } },
       [FileOp.truncateFile (vm0.disk_dir envNoTools ++ "/" ++ "vm0-disk0.qcow2") (2 * 2 ^ 30)]) :=
  ⟨rfl, create_disk_fallback_raw envNoTools vm0 "vm0-disk0.qcow2" 2 "qcow2" rfl⟩

/-- C2: when the hypervisor binary cannot be resolved, `build_qemu_cmd`
aborts with `HypervisorNotFound` before any other step: the VM (config,
disks list, advanced map) is unchanged, no file operation happens, no
command is produced, and a `start` that reaches the build step spawns no
process at all. -/
theorem build_qemu_cmd_no_hypervisor (env : Env) (vm : VM) (e : Option Nat)
    (h : env.qemuPath = none) :
    VM.build_qemu_cmd env vm e = ⟨vm, [], [], some .hypervisorNotFound⟩ ∧
    (procLive vm.proc = false →
      VM.start env vm e = ⟨vm, [], [], some .hypervisorNotFound⟩) := by
  refine ⟨build_qemu_cmd_none env vm e h, fun hl => ?_⟩
  rw [VM.start, hl]
  simp [build_qemu_cmd_none env vm e h]

theorem build_qemu_cmd_no_hypervisor_witness :
    VM.build_qemu_cmd envNoTools vm0 none = ⟨vm0, [], [], some .hypervisorNotFound⟩ ∧
    VM.start envNoTools vm0 none = ⟨vm0, [], [], some .hypervisorNotFound⟩ :=
  ⟨(build_qemu_cmd_no_hypervisor envNoTools vm0 none rfl).1,
   (build_qemu_cmd_no_hypervisor envNoTools vm0 none rfl).2 rfl⟩

/-- C3: `start` on a VM with a live process handle fails with
`AlreadyRunning`: the state (process handle, config) is returned
unchanged and no process is spawned. -/
theorem start_already_running (env : Env) (vm : VM) (e : Option Nat) (p : Proc)
    (hp : vm.proc = some p) (hl : p.exitCode = none) :
    VM.start env vm e = ⟨vm, [], [], some .alreadyRunning⟩ := by
  simp [VM.start, procLive, hp, hl]

theorem start_already_running_witness :
    vmRunning.proc = some ⟨["qemu-system-x86_64"], none⟩ ∧
    VM.start envNoTools vmRunning none = ⟨vmRunning, [], [], some .alreadyRunning⟩ :=
  ⟨rfl, start_already_running envNoTools vmRunning none ⟨["qemu-system-x86_64"], none⟩ rfl rfl⟩

/-- C4: `build_qemu_cmd` is deterministic.  Two runs on the same host
(same hypervisor and `qemu-img` resolution, same store directory) with
the same config — whose `advanced` map already holds the machine type,
VNC port, control port, firmware path and bridge interface name — and the
same embed-surface argument produce identical results, whatever ephemeral
ports the kernel would have handed out. -/
theorem build_qemu_cmd_deterministic (env1 env2 : Env) (vm : VM) (e : Option Nat)
    (hqemu : env2.qemuPath = env1.qemuPath)
    (himg : env2.qemuImg = env1.qemuImg)
    (hdir : env2.vmsDir = env1.vmsDir)
    (_hm : vm.config.advanced.machine.isSome = true)
    (hv : truthyNat vm.config.advanced.vnc_port = true)
    (hq : truthyNat vm.config.advanced.qmp_port = true)
    (_ho : vm.config.advanced.ovmf_code.isSome = true)
    (_ht : vm.config.advanced.tap_name.isSome = true) :
    VM.build_qemu_cmd env2 vm e = VM.build_qemu_cmd env1 vm e := by
  cases henv : env1.qemuPath with
  | none =>
    rw [build_qemu_cmd_none env1 vm e henv,
      build_qemu_cmd_none env2 vm e (hqemu.trans henv)]
  | some q =>
    rw [build_qemu_cmd_some env1 vm e q henv,
      build_qemu_cmd_some env2 vm e q (hqemu.trans henv),
      ensure_primary_disk_env_congr env2 env1 vm himg hdir]
    have hadv := ensure_primary_disk_advanced env1 vm
    have hv1 : truthyNat ((VM.ensure_primary_disk env1 vm).1).config.advanced.vnc_port = true := by
      rw [hadv]; exact hv
    have hq1 : truthyNat
        (graphicsArgs env1 ((VM.ensure_primary_disk env1 vm).1).config e).2.advanced.qmp_port
          = true := by
      rw [graphicsArgs_snd env1 _ e (fun _ => hv1), hadv]; exact hq
    rw [graphicsArgs_env_congr env2 env1 _ e hv1, qmpArgs_env_congr env2 env1 _ hq1]
    simp [logArgs, hdir]

theorem build_qemu_cmd_deterministic_witness :
    VM.build_qemu_cmd envStockedOther vmAdv (some 7) =
      VM.build_qemu_cmd envStocked vmAdv (some 7) :=
  build_qemu_cmd_deterministic envStocked envStockedOther vmAdv (some 7)
    rfl rfl rfl rfl rfl rfl rfl rfl

/-- C5: port allocation is sticky.  With a stored control port (and, when
graphics is `vnc`, a stored VNC port), `build_qemu_cmd` leaves the whole
`advanced` map unchanged, and the `-qmp` flag it emits reuses the stored
control port verbatim. -/
theorem build_qemu_cmd_advanced_sticky (env : Env) (vm : VM) (e : Option Nat)
    (hq : truthyNat vm.config.advanced.qmp_port = true)
    (hv : vm.config.graphics = "vnc" → truthyNat vm.config.advanced.vnc_port = true) :
    (VM.build_qemu_cmd env vm e).vm.config.advanced = vm.config.advanced ∧
    (∀ qp : String, env.qemuPath = some qp →
      ("tcp:127.0.0.1:" ++ toString (vm.config.advanced.qmp_port.getD 0) ++ ",server,nowait")
        ∈ (VM.build_qemu_cmd env vm e).cmd) := by
  have hadv := ensure_primary_disk_advanced env vm
  have hgfx := ensure_primary_disk_graphics env vm
  have hsnd : (graphicsArgs env ((VM.ensure_primary_disk env vm).1).config e).2
      = ((VM.ensure_primary_disk env vm).1).config :=
    graphicsArgs_snd env _ e (fun hg => by rw [hadv]; exact hv (hgfx ▸ hg))
  have hq1 : truthyNat ((VM.ensure_primary_disk env vm).1).config.advanced.qmp_port = true := by
    rw [hadv]; exact hq
  constructor
  · cases henv : env.qemuPath with
    | none => rw [build_qemu_cmd_none env vm e henv]
    | some q =>
      rw [build_qemu_cmd_some env vm e q henv]
      show (qmpArgs env (graphicsArgs env ((VM.ensure_primary_disk env vm).1).config e).2).2.advanced
        = vm.config.advanced
      rw [hsnd, qmpArgs_snd env _ hq1, hadv]
  · intro qp hqp
    rw [build_qemu_cmd_some env vm e qp hqp]
    show _ ∈ [qp] ++ _ ++ _ ++ _ ++ _ ++ _ ++ _ ++ _
      ++ (qmpArgs env (graphicsArgs env ((VM.ensure_primary_disk env vm).1).config e).2).1
      ++ _ ++ _ ++ _
    rw [hsnd, qmpArgs_fst env _ hq1, hadv]
    simp [List.mem_append]

theorem build_qemu_cmd_advanced_sticky_witness :
    (VM.build_qemu_cmd envStocked vmAdv none).vm.config.advanced = vmAdv.config.advanced ∧
    ("tcp:127.0.0.1:" ++ toString (vmAdv.config.advanced.qmp_port.getD 0) ++ ",server,nowait")
      ∈ (VM.build_qemu_cmd envStocked vmAdv none).cmd :=
  ⟨(build_qemu_cmd_advanced_sticky envStocked vmAdv none rfl (fun _ => rfl)).1,
   (build_qemu_cmd_advanced_sticky envStocked vmAdv none rfl (fun _ => rfl)).2
     "/usr/bin/qemu-system-x86_64" rfl⟩

/-- C6: `ensure_primary_disk` is idempotent — a no-op (no config change,
no file operation) when `disks` is non-empty, exactly one disk created
when it is empty, and a second call (under any host environment) is
always a no-op, so calling it twice never produces two disks. -/
theorem ensure_primary_disk_idempotent (env env2 : Env) (vm : VM) :
    (vm.config.disks ≠ [] → VM.ensure_primary_disk env vm = (vm, [])) ∧
    (vm.config.disks = [] →
      ((VM.ensure_primary_disk env vm).1.config.disks).length = 1) ∧
    VM.ensure_primary_disk env2 (VM.ensure_primary_disk env vm).1
      = ((VM.ensure_primary_disk env vm).1, []) := by
  refine ⟨fun h => by simp [VM.ensure_primary_disk, h], fun h => ?_, ?_⟩
  · simp [VM.ensure_primary_disk, VM.create_disk, h]
  · by_cases h : vm.config.disks = []
    · simp [VM.ensure_primary_disk, VM.create_disk, h]
    · simp [VM.ensure_primary_disk, h]

theorem ensure_primary_disk_idempotent_witness :
    VM.ensure_primary_disk envNoTools
        (VM.ensure_primary_disk envNoTools vm0).1
      = ((VM.ensure_primary_disk envNoTools vm0).1, []) ∧
    ((VM.ensure_primary_disk envNoTools vm0).1.config.disks).length = 1 :=
  ⟨(ensure_primary_disk_idempotent envNoTools envNoTools vm0).2.2,
   (ensure_primary_disk_idempotent envNoTools envNoTools vm0).2.1 rfl⟩

/-- C7: for a VM named `web01` with an empty disks list, raw format and
size `g` GiB, `ensure_primary_disk` registers exactly one DiskSpec whose
path is `<store>/web01/disks/web01-disk0.raw` and truncates that file to
an apparent size of exactly `g * 2^30` bytes. -/
theorem ensure_primary_disk_web01 (env : Env) (g : Nat) (vm : VM)
    (hn : vm.name = "web01") (hd : vm.config.disks = [])
    (hf : vm.config.disk_format = "raw") (hg : vm.config.disk_gib = g) :
    VM.ensure_primary_disk env vm =
      ({ vm with config := { vm.config with
          disks := [⟨env.vmsDir ++ "/web01/disks/web01-disk0.raw", "raw"⟩] } },
       [FileOp.truncateFile (env.vmsDir ++ "/web01/disks/web01-disk0.raw") (g * 2 ^ 30)]) := by
  simp [VM.ensure_primary_disk, VM.create_disk, VM.disk_dir, VM.dirPath, hn, hd, hf, hg,
    String.append_assoc]

theorem ensure_primary_disk_web01_witness :
    VM.ensure_primary_disk envNoTools vmWeb01 =
      ({ vmWeb01 with config := { vmWeb01.config with
          disks := [⟨envNoTools.vmsDir ++ "/web01/disks/web01-disk0.raw", "raw"⟩] } },
       [FileOp.truncateFile (envNoTools.vmsDir ++ "/web01/disks/web01-disk0.raw") (32 * 2 ^ 30)]) :=
  ensure_primary_disk_web01 envNoTools 32 vmWeb01 rfl rfl rfl rfl

/-- C8: `qmp_command` without a handshaken (Ready) connection fails with
`NotConnected`, writing and reading nothing; with a Ready connection it
writes exactly one newline-terminated JSON-encoded command, reads exactly
one buffered response, never raises, and surfaces an unparseable response
as `{"raw": <rawBytes>}`. -/
theorem qmp_command_spec (env : Env) (vm : VM) (c : Json) :
    (vm.qmp_sock = false → VM.qmp_command env vm c = ⟨[], [], none, some .notConnected⟩) ∧
    (vm.qmp_sock = true →
      (VM.qmp_command env vm c).sent = [Json.dumps c ++ "\n"] ∧
      (VM.qmp_command env vm c).received = [env.recvData] ∧
      (VM.qmp_command env vm c).err = none ∧
      (env.jsonLoads env.recvData = none →
        (VM.qmp_command env vm c).result
          = some (Json.obj [("raw", Json.str env.recvData)]))) := by
  constructor
  · intro h
    simp [VM.qmp_command, h]
  · intro h
    cases hj : env.jsonLoads env.recvData <;>
      simp [VM.qmp_command, h, hj]

theorem qmp_command_spec_witness :
    VM.qmp_command envGarbled vm0 (Json.obj [("execute", Json.str "query-status")])
      = ⟨[], [], none, some .notConnected⟩ ∧
    (VM.qmp_command envGarbled vmReady (Json.obj [("execute", Json.str "query-status")])).sent
      = [Json.dumps (Json.obj [("execute", Json.str "query-status")]) ++ "\n"] ∧
    (VM.qmp_command envGarbled vmReady (Json.obj [("execute", Json.str "query-status")])).result
      = some (Json.obj [("raw", Json.str "event-noise")]) :=
  ⟨(qmp_command_spec envGarbled vm0 _).1 rfl,
   ((qmp_command_spec envGarbled vmReady _).2 rfl).1,
   ((qmp_command_spec envGarbled vmReady _).2 rfl).2.2.2 rfl⟩

/-- C9: `import_bundle` fails with `EmptyBundle` on an archive with no
entries and with `AlreadyExists` when the VM directory named by the
top-level directory of the archive's first entry already exists — in both
cases extracting nothing; otherwise it extracts every archive member into
the VM store root and loads the VM of that name. -/
theorem import_bundle_spec (env : Env) (members : List String) :
    (members = [] → VM.import_bundle env members = ([], .error .emptyBundle)) ∧
    (∀ m rest, members = m :: rest →
      (env.fsExists (env.vmsDir ++ "/" ++ splitHead m) = true →
        VM.import_bundle env members = ([], .error .vmExists)) ∧
      (env.fsExists (env.vmsDir ++ "/" ++ splitHead m) = false →
        VM.import_bundle env members = (members, .ok (splitHead m)))) := by
  refine ⟨fun h => by subst h; rfl, fun m rest h => ?_⟩
  subst h
  constructor
  · intro hex
    simp only [VM.import_bundle]
    rw [hex]
    rfl
  · intro hex
    simp only [VM.import_bundle]
    rw [hex]
    rfl

theorem import_bundle_spec_witness :
    VM.import_bundle envHasWeb01 [] = ([], .error .emptyBundle) ∧
    VM.import_bundle envHasWeb01 ["web01/config.json", "web01/disks/web01-disk0.raw"]
      = ([], .error .vmExists) ∧
    VM.import_bundle envHasWeb01 ["web02/config.json", "web02/disks/web02-disk0.raw"]
      = (["web02/config.json", "web02/disks/web02-disk0.raw"], .ok "web02") :=
  ⟨(import_bundle_spec envHasWeb01 []).1 rfl,
   ((import_bundle_spec envHasWeb01 _).2 "web01/config.json" _ rfl).1 (by decide),
   ((import_bundle_spec envHasWeb01 _).2 "web02/config.json" _ rfl).2 (by decide)⟩

/-- C10: `export_bundle` is total (it never fails), always places the
config document as the first archive entry, adds one entry per registered
disk whose file exists — silently skipping a DiskSpec whose file does not
exist, so the archive may hold fewer disk entries than the config
registers — and at most one install-media entry. -/
theorem export_bundle_spec (env : Env) (vm : VM) (inc : Bool) :
    (VM.export_bundle env vm inc).head?
      = some (vm.config_path env, vm.name ++ "/config.json") ∧
    (VM.export_bundle env vm inc).length
      ≤ 1 + (vm.config.disks.countP fun d => env.fsExists d.path) + 1 ∧
    (vm.config.disks.countP fun d => env.fsExists d.path) ≤ vm.config.disks.length ∧
    (∀ d ∈ vm.config.disks, env.fsExists d.path = true →
      (d.path, vm.name ++ "/disks/" ++ baseName d.path) ∈ VM.export_bundle env vm inc) ∧
    (∀ d ∈ vm.config.disks, env.fsExists d.path = false →
      ∀ x ∈ (vm.config.disks.filter fun d => env.fsExists d.path).map
          (fun d => (d.path, vm.name ++ "/disks/" ++ baseName d.path)),
        x.1 ≠ d.path) := by
  refine ⟨rfl, ?_, ?_, ?_, ?_⟩
  · simp only [VM.export_bundle, List.length_append, List.length_map, List.length_cons,
      List.countP_eq_length_filter, List.length_singleton]
    split_ifs <;> simp
  · simpa [List.countP_eq_length_filter] using List.length_filter_le _ vm.config.disks
  · intro d hd hex
    simp only [VM.export_bundle, List.mem_append]
    exact Or.inl (Or.inr (List.mem_map_of_mem _ (List.mem_filter.2 ⟨hd, by simp [hex]⟩)))
  · intro d hd hmiss x hx
    obtain ⟨d2, hd2, rfl⟩ := List.mem_map.1 hx
    have h2 := (List.mem_filter.1 hd2).2
    intro hcontra
    have hpp : d2.path = d.path := hcontra
    rw [hpp, hmiss] at h2
    exact Bool.false_ne_true h2

theorem export_bundle_spec_witness :
    (VM.export_bundle envOneDisk vmTwoDisks false).head?
      = some (vmTwoDisks.config_path envOneDisk, "vm2/config.json") ∧
    ("/home/user/.py86/vms/vm2/disks/vm2-disk0.raw",
      "vm2/disks/" ++ baseName "/home/user/.py86/vms/vm2/disks/vm2-disk0.raw")
      ∈ VM.export_bundle envOneDisk vmTwoDisks false :=
  ⟨(export_bundle_spec envOneDisk vmTwoDisks false).1,
   (export_bundle_spec envOneDisk vmTwoDisks false).2.2.2.1
     ⟨"/home/user/.py86/vms/vm2/disks/vm2-disk0.raw", "raw"⟩
     (by simp [vmTwoDisks, vmTwoDisksConfig]) rfl⟩

end Py86
